import Mathlib

/-!
# Verification of the chatbot backend's session/message service

Shallow embedding of the Go handlers (`handlers/chat.go`, the session
handlers, `services/chat_service.go`) over an explicit database state.

Modelling conventions:
* `time.Now()` is a monotone tick counter threaded through each operation:
  every call to `Now` returns the current counter value and advances it by
  one, so successive timestamps are strictly increasing within a request.
* UUID generation (`uuid.New().String()`) is modelled by passing the fresh
  identifiers as explicit arguments.
* GORM calls that can fail are given an explicit success flag argument
  (`okCreate...`, `okSave...`): `true` means the statement succeeded,
  `false` that the driver reported an error.  A flag for a statement whose
  error the Go code discards (`db.Save(&session)` at the end of
  `SendMessage`, `db.Save(&originalMessage)` in `RegenerateMessage`) still
  controls whether the write lands, but the handler's control flow ignores
  it, exactly as in the source.
* `First(&x, "id = ?", v)` is `List.find?` on the id; `Where(...).Delete`
  is a filter; GORM `Save` is an upsert keyed on the primary key.
* The AI service (`services.AIService`) is a function from the prompt to
  `Except String String`: `.ok reply` on success, `.error e` on failure.
-/

/-- `models.Session` (middleware/auth.go tail / models package). -/
structure Session where
  id : String
  title : String
  createdAt : Nat
  updatedAt : Nat
  isFavorite : Bool
deriving Repr, DecidableEq

/-- `models.Message` (scalar fields; the `Reactions` association is never
touched by the verified flows). -/
structure Message where
  id : String
  content : String
  sender : String
  timestamp : Nat
  messageType : String
  isTyping : Bool
  isFavorite : Bool
  isRegenerated : Bool
  originalMessageID : String
  sessionID : String
deriving Repr, DecidableEq

/-- The relational store: the `sessions` and `messages` tables. -/
structure DB where
  sessions : List Session
  messages : List Message
deriving Repr, DecidableEq

/-- `handlers.ErrorResponse`: the JSON error body `{error, message, code}`. -/
structure ErrorResponse where
  error : String
  message : String
  code : Nat
deriving Repr, DecidableEq

/-- GORM `db.Save(&session)`: update the row with the same primary key,
insert if absent. -/
def saveSession (db : DB) (s : Session) : DB :=
  if db.sessions.any (fun t => t.id == s.id) then
    { db with sessions := db.sessions.map (fun t => if t.id == s.id then s else t) }
  else
    { db with sessions := db.sessions ++ [s] }

/-- GORM `db.Save(&message)`: update the row with the same primary key,
insert if absent. -/
def saveMessage (db : DB) (m : Message) : DB :=
  if db.messages.any (fun t => t.id == m.id) then
    { db with messages := db.messages.map (fun t => if t.id == m.id then m else t) }
  else
    { db with messages := db.messages ++ [m] }

/-- `db.First(&session, "id = ?", id)`. -/
def findSession (db : DB) (sessionID : String) : Option Session :=
  db.sessions.find? (fun s => s.id == sessionID)

/-- `db.First(&message, "id = ?", id)`. -/
def findMessage (db : DB) (messageID : String) : Option Message :=
  db.messages.find? (fun m => m.id == messageID)

/-- Result of the `SendMessage` handler: either a JSON error response or
the 200 body `{message: botMessage, sessionId}`. -/
inductive SendOutcome where
  | failure (e : ErrorResponse)
  | success (botMessage : Message) (sessionId : String)
deriving Repr, DecidableEq

/-- The tail of `handlers.SendMessage` after the session has been created
or loaded (chat.go lines 83-140): insert the user message, call the AI
service, insert the bot message, bump the session's `updated_at` with a
`Save` whose error is discarded, and return the bot message. -/
def sendMessageCore (db : DB) (c : Nat) (reqMessage : String) (session : Session)
    (newUserId newBotId : String) (aiResult : Except String String)
    (okCreateUser okCreateBot okFinalSave : Bool) :
    SendOutcome × DB × Nat :=
  let userMessage : Message :=
    ⟨newUserId, reqMessage, "user", c, "text", false, false, false, "", session.id⟩
  if okCreateUser then
    let db1 : DB := { db with messages := db.messages ++ [userMessage] }
    match aiResult with
    | .error _ =>
        (.failure ⟨"AI Service error", "Failed to get AI response", 500⟩, db1, c + 1)
    | .ok reply =>
        let botMessage : Message :=
          ⟨newBotId, reply, "bot", c + 1, "text", false, false, false, "", session.id⟩
        if okCreateBot then
          let db2 : DB := { db1 with messages := db1.messages ++ [botMessage] }
          let session2 : Session := { session with updatedAt := c + 2 }
          let db3 : DB := if okFinalSave then saveSession db2 session2 else db2
          (.success botMessage session.id, db3, c + 3)
        else
          (.failure ⟨"Database error", "Failed to save bot message", 500⟩, db1, c + 2)
  else
    (.failure ⟨"Database error", "Failed to save user message", 500⟩, db, c + 1)

/-- `handlers.SendMessage` (chat.go lines 40-141).  An empty `reqMessage`
violates the `binding:"required"` tag and yields 400.  An empty
`reqSessionID` creates a fresh session titled "New Chat".  A non-empty
`reqSessionID` is loaded with `db.Preload("Mode").First(...)`
(chat.go line 55) — but `models.Session` has no `Mode` relation, so GORM
rejects the query (unsupported relations) and the handler takes its
error path: it answers 404 "Session not found" for every non-empty
`reqSessionID`, whether or not the session row exists, inserting
nothing. -/
def sendMessage (db : DB) (c : Nat) (reqMessage reqSessionID : String)
    (newSessionId newUserId newBotId : String)
    (aiSend : String → Except String String)
    (okCreateSession okCreateUser okCreateBot okFinalSave : Bool) :
    SendOutcome × DB × Nat :=
  if reqMessage = "" then
    (.failure ⟨"Invalid request", "Key: Message Error:Field validation for Message failed on the required tag", 400⟩, db, c)
  else if reqSessionID = "" then
    let session : Session := ⟨newSessionId, "New Chat", c, c + 1, false⟩
    if okCreateSession then
      sendMessageCore { db with sessions := db.sessions ++ [session] } (c + 2)
        reqMessage session newUserId newBotId (aiSend reqMessage)
        okCreateUser okCreateBot okFinalSave
    else
      (.failure ⟨"Database error", "Failed to create session", 500⟩, db, c + 2)
  else
    (.failure ⟨"Session not found", "The specified session does not exist", 404⟩, db, c)

/-- The query at chat.go lines 180-182:
`Where("session_id = ? AND sender = ? AND timestamp < ?", sid, "user", ts)
 .Order("timestamp DESC").First(...)`: among the matching rows, one with
the maximal timestamp (ties broken by row order, which the storage engine
leaves unspecified). -/
def priorUserMessage (db : DB) (sessionID : String) (ts : Nat) : Option Message :=
  (db.messages.filter
      (fun m => m.sessionID == sessionID && m.sender == "user" && decide (m.timestamp < ts))).foldl
    (fun acc m =>
      match acc with
      | none => some m
      | some b => if b.timestamp < m.timestamp then some m else acc)
    none

/-- Result of the `RegenerateMessage` handler: a JSON error response or
the 200 body `{message: newMessage}`. -/
inductive RegenOutcome where
  | failure (e : ErrorResponse)
  | success (newMessage : Message)
deriving Repr, DecidableEq

/-- `handlers.RegenerateMessage` (chat.go lines 144-230).  Both request
fields carry `binding:"required"`, so an empty one yields 400.  The target
message and the session are loaded (404 if absent), the most recent prior
user message in the *requested* session is found (404 if none), the target
is marked regenerated with `original_message_id` set to its own id by a
`Save` whose error is discarded, the AI service is called with the prior
user message's content (500 on failure), and the new bot message is
inserted (500 on failure). -/
def regenerateMessage (db : DB) (c : Nat) (reqMessageID reqSessionID : String)
    (newMsgId : String) (aiRegen : String → Except String String)
    (okSaveOriginal okCreateNew : Bool) :
    RegenOutcome × DB × Nat :=
  if reqMessageID = "" ∨ reqSessionID = "" then
    (.failure ⟨"Invalid request", "Field validation failed on the required tag", 400⟩, db, c)
  else
    match findMessage db reqMessageID with
    | none =>
        (.failure ⟨"Message not found", "The specified message does not exist", 404⟩, db, c)
    | some originalMessage =>
        match findSession db reqSessionID with
        | none =>
            (.failure ⟨"Session not found", "The specified session does not exist", 404⟩, db, c)
        | some _session =>
            match priorUserMessage db reqSessionID originalMessage.timestamp with
            | none =>
                (.failure ⟨"User message not found", "Could not find the user message to regenerate", 404⟩, db, c)
            | some userMessage =>
                let marked : Message :=
                  { originalMessage with
                      isRegenerated := true,
                      originalMessageID := originalMessage.id }
                let db1 : DB := if okSaveOriginal then saveMessage db marked else db
                match aiRegen userMessage.content with
                | .error _ =>
                    (.failure ⟨"AI Service error", "Failed to regenerate message", 500⟩, db1, c)
                | .ok reply =>
                    let newMessage : Message :=
                      ⟨newMsgId, reply, "bot", c, "text", false, false, true,
                        reqMessageID, reqSessionID⟩
                    if okCreateNew then
                      (.success newMessage,
                        { db1 with messages := db1.messages ++ [newMessage] }, c + 1)
                    else
                      (.failure ⟨"Database error", "Failed to save regenerated message", 500⟩,
                        db1, c + 1)

/-- Result of the session handlers returning a single session. -/
inductive SessionOutcome where
  | failure (e : ErrorResponse)
  | success (session : Session)
deriving Repr, DecidableEq

/-- `handlers.GetSession`: `Preload("Messages").First(&session, "id = ?", id)`,
404 if absent; the session together with its eagerly loaded messages. -/
def getSession (db : DB) (sessionID : String) : SessionOutcome :=
  match findSession db sessionID with
  | none => .failure ⟨"Session not found", "The specified session does not exist", 404⟩
  | some s => .success s

/-- `handlers.UpdateSession`: load the session (404 if absent), overwrite
the title only when the request supplies a non-empty one, overwrite the
favorite flag only when the pointer is non-nil, set `updated_at` to now,
save (500 on failure, leaving the store untouched). -/
def updateSession (db : DB) (c : Nat) (sessionID : String) (reqTitle : String)
    (reqIsFavorite : Option Bool) (okSave : Bool) :
    SessionOutcome × DB × Nat :=
  match findSession db sessionID with
  | none =>
      (.failure ⟨"Session not found", "The specified session does not exist", 404⟩, db, c)
  | some session =>
      let s1 : Session := if reqTitle ≠ "" then { session with title := reqTitle } else session
      let s2 : Session :=
        match reqIsFavorite with
        | some b => { s1 with isFavorite := b }
        | none => s1
      let s3 : Session := { s2 with updatedAt := c }
      if okSave then
        (.success s3, saveSession db s3, c + 1)
      else
        (.failure ⟨"Database error", "Failed to update session", 500⟩, db, c + 1)

/-- `handlers.ToggleFavorite`: load the session (404 if absent), flip the
favorite flag, set `updated_at` to now, save (500 on failure). -/
def toggleFavorite (db : DB) (c : Nat) (sessionID : String) (okSave : Bool) :
    SessionOutcome × DB × Nat :=
  match findSession db sessionID with
  | none =>
      (.failure ⟨"Session not found", "The specified session does not exist", 404⟩, db, c)
  | some session =>
      let s1 : Session := { session with isFavorite := !session.isFavorite, updatedAt := c }
      if okSave then
        (.success s1, saveSession db s1, c + 1)
      else
        (.failure ⟨"Database error", "Failed to update session", 500⟩, db, c + 1)

/-- Result of the `DeleteSession` handler. -/
inductive DeleteOutcome where
  | failure (e : ErrorResponse)
  | success (message : String)
deriving Repr, DecidableEq

/-- `handlers.DeleteSession`: check the session exists (404 otherwise,
before any delete), delete the messages with that `session_id` (500 on
driver error), then delete the session row itself (500 on driver error). -/
def deleteSession (db : DB) (sessionID : String)
    (okDeleteMessages okDeleteSession : Bool) : DeleteOutcome × DB :=
  match findSession db sessionID with
  | none =>
      (.failure ⟨"Session not found", "The specified session does not exist", 404⟩, db)
  | some session =>
      if okDeleteMessages then
        let db1 : DB := { db with messages := db.messages.filter (fun m => !(m.sessionID == sessionID)) }
        if okDeleteSession then
          (.success "Session deleted successfully",
            { db1 with sessions := db1.sessions.filter (fun s => !(s.id == session.id)) })
        else
          (.failure ⟨"Database error", "Failed to delete session", 500⟩, db1)
      else
        (.failure ⟨"Database error", "Failed to delete session messages", 500⟩, db)

/-! ## Helper lemmas about the store primitives -/

/-- A mock AI service in the style of `services.MockAIService`. -/
def demoAi : String → Except String String := fun s => .ok ("re: " ++ s)

/-- A tiny store: one session "s1" holding a user message and a bot reply. -/
def demoDB : DB :=
  ⟨[⟨"s1", "T", 0, 1, false⟩],
   [⟨"u1", "hi", "user", 2, "text", false, false, false, "", "s1"⟩,
    ⟨"b1", "yo", "bot", 3, "text", false, false, false, "", "s1"⟩]⟩

def c1Out : Message := ⟨"n1", "re: hi", "bot", 10, "text", false, false, true, "b1", "s1"⟩

def c1DBOut : DB :=
  ⟨[⟨"s1", "T", 0, 1, false⟩],
   [⟨"u1", "hi", "user", 2, "text", false, false, false, "", "s1"⟩,
    ⟨"b1", "yo", "bot", 3, "text", false, false, true, "b1", "s1"⟩, c1Out]⟩

def c2Ai : String → Except String String := fun _ => .error "boom"

def c2DBOut : DB :=
  ⟨[⟨"s1", "T", 0, 1, false⟩, ⟨"s2", "New Chat", 10, 11, false⟩],
   [⟨"u1", "hi", "user", 2, "text", false, false, false, "", "s1"⟩,
    ⟨"b1", "yo", "bot", 3, "text", false, false, false, "", "s1"⟩,
    ⟨"u2", "ping", "user", 12, "text", false, false, false, "", "s2"⟩]⟩


def c7DBOut : DB :=
  ⟨[⟨"s1", "T", 0, 1, false⟩],
   [⟨"u1", "hi", "user", 2, "text", false, false, false, "", "s1"⟩,
    ⟨"b1", "yo", "bot", 3, "text", false, false, true, "b1", "s1"⟩]⟩


/-- A store with two sessions, used to exercise the cross-session
regenerate path: the target "b1" lives in "s1", the call supplies "s2". -/
def c9DB : DB :=
  ⟨[⟨"s1", "T", 0, 1, false⟩, ⟨"s2", "U", 0, 1, false⟩],
   [⟨"u1", "hi", "user", 2, "text", false, false, false, "", "s1"⟩,
    ⟨"b1", "yo", "bot", 5, "text", false, false, false, "", "s1"⟩,
    ⟨"u2", "hey", "user", 4, "text", false, false, false, "", "s2"⟩]⟩

def c9Out : Message := ⟨"n1", "re: hey", "bot", 10, "text", false, false, true, "b1", "s2"⟩

def c9DBOut : DB :=
  ⟨[⟨"s1", "T", 0, 1, false⟩, ⟨"s2", "U", 0, 1, false⟩],
   [⟨"u1", "hi", "user", 2, "text", false, false, false, "", "s1"⟩,
    ⟨"b1", "yo", "bot", 5, "text", false, false, true, "b1", "s1"⟩,
    ⟨"u2", "hey", "user", 4, "text", false, false, false, "", "s2"⟩, c9Out]⟩


def c5Out : Message := ⟨"b2", "re: ping", "bot", 13, "text", false, false, false, "", "s2"⟩

def c5DBOut : DB :=
  ⟨[⟨"s1", "T", 0, 1, false⟩, ⟨"s2", "New Chat", 10, 14, false⟩],
   [⟨"u1", "hi", "user", 2, "text", false, false, false, "", "s1"⟩,
    ⟨"b1", "yo", "bot", 3, "text", false, false, false, "", "s1"⟩,
    ⟨"u2", "ping", "user", 12, "text", false, false, false, "", "s2"⟩, c5Out]⟩


def c10DBOut : DB :=
  ⟨[⟨"s1", "T", 0, 1, false⟩, ⟨"s2", "New Chat", 10, 11, false⟩],
   [⟨"u1", "hi", "user", 2, "text", false, false, false, "", "s1"⟩,
    ⟨"b1", "yo", "bot", 3, "text", false, false, false, "", "s1"⟩,
    ⟨"u2", "ping", "user", 12, "text", false, false, false, "", "s2"⟩, c5Out]⟩


/-- Sessions invariant: `updated_at` at least `created_at`, and no
session timestamp beyond the current clock `c`. -/
def timeOk (db : DB) (c : Nat) : Prop :=
  ∀ s ∈ db.sessions, s.createdAt ≤ s.updatedAt ∧ s.updatedAt ≤ c

/-- Between two stores of one call starting at clock `c`: every session
of the final store is either an untouched pre-existing row or a row
written during the call, whose `updated_at` is at least `c`.  Together
with `timeOk db c` this says no session's `updated_at` ever decreases. -/
def sessionsMonoAt (db db' : DB) (c : Nat) : Prop :=
  ∀ s' ∈ db'.sessions, s' ∈ db.sessions ∨ c ≤ s'.updatedAt


/-- The in-memory session record as `UpdateSession` mutates it before the
save: title overwritten only when non-empty, favorite only when supplied,
`updated_at` set to now. -/
def applyUpdate (session : Session) (reqTitle : String) (reqIsFavorite : Option Bool)
    (c : Nat) : Session :=
  { (match reqIsFavorite with
     | some b => { (if reqTitle ≠ "" then { session with title := reqTitle } else session)
          with isFavorite := b }
     | none => (if reqTitle ≠ "" then { session with title := reqTitle } else session))
    with updatedAt := c }


def c3UpdDB : DB :=
  ⟨[⟨"s1", "T", 0, 10, true⟩],
   [⟨"u1", "hi", "user", 2, "text", false, false, false, "", "s1"⟩,
    ⟨"b1", "yo", "bot", 3, "text", false, false, false, "", "s1"⟩]⟩


/-! ## Helper lemmas -/

lemma saveMessage_self_mem (db : DB) (m : Message) : m ∈ (saveMessage db m).messages := by
  unfold saveMessage
  split
  · rename_i h
    rw [List.any_eq_true] at h
    obtain ⟨t, ht, hid⟩ := h
    exact List.mem_map.2 ⟨t, ht, by rw [if_pos hid]⟩
  · simp

lemma mem_saveMessage (db : DB) (m x : Message) (hx : x ∈ (saveMessage db m).messages) :
    x = m ∨ (x ∈ db.messages ∧ x.id ≠ m.id) := by
  unfold saveMessage at hx
  split at hx
  · simp only [List.mem_map] at hx
    obtain ⟨t, ht, hmap⟩ := hx
    by_cases hid : t.id = m.id
    · left
      rw [if_pos (by simp [hid])] at hmap
      exact hmap.symm
    · right
      rw [if_neg (by simp [hid])] at hmap
      exact ⟨hmap ▸ ht, hmap ▸ hid⟩
  · rename_i h
    rw [Bool.not_eq_true, List.any_eq_false] at h
    rcases List.mem_append.1 hx with hx | hx
    · right
      refine ⟨hx, ?_⟩
      have := h x hx
      simpa using this
    · left
      simpa using hx

lemma saveMessage_length (db : DB) (m : Message)
    (h : ∃ t ∈ db.messages, t.id = m.id) :
    (saveMessage db m).messages.length = db.messages.length := by
  unfold saveMessage
  split
  · simp
  · rename_i hany
    exfalso
    rw [Bool.not_eq_true, List.any_eq_false] at hany
    obtain ⟨t, ht, hid⟩ := h
    have := hany t ht
    simp [hid] at this

lemma saveSession_self_mem (db : DB) (s : Session) : s ∈ (saveSession db s).sessions := by
  unfold saveSession
  split
  · rename_i h
    rw [List.any_eq_true] at h
    obtain ⟨t, ht, hid⟩ := h
    exact List.mem_map.2 ⟨t, ht, by rw [if_pos hid]⟩
  · simp

lemma mem_saveSession (db : DB) (s x : Session) (hx : x ∈ (saveSession db s).sessions) :
    x = s ∨ (x ∈ db.sessions ∧ x.id ≠ s.id) := by
  unfold saveSession at hx
  split at hx
  · simp only [List.mem_map] at hx
    obtain ⟨t, ht, hmap⟩ := hx
    by_cases hid : t.id = s.id
    · left
      rw [if_pos (by simp [hid])] at hmap
      exact hmap.symm
    · right
      rw [if_neg (by simp [hid])] at hmap
      exact ⟨hmap ▸ ht, hmap ▸ hid⟩
  · rename_i h
    rw [Bool.not_eq_true, List.any_eq_false] at h
    rcases List.mem_append.1 hx with hx | hx
    · right
      refine ⟨hx, ?_⟩
      have := h x hx
      simpa using this
    · left
      simpa using hx

lemma findMessage_id (db : DB) (i : String) (m : Message) (h : findMessage db i = some m) :
    m.id = i := by
  unfold findMessage at h
  have := List.find?_some h
  simpa using this

lemma findMessage_mem (db : DB) (i : String) (m : Message) (h : findMessage db i = some m) :
    m ∈ db.messages := by
  unfold findMessage at h
  exact List.mem_of_find?_eq_some h

lemma findSession_id (db : DB) (i : String) (s : Session) (h : findSession db i = some s) :
    s.id = i := by
  unfold findSession at h
  have := List.find?_some h
  simpa using this

lemma findSession_mem (db : DB) (i : String) (s : Session) (h : findSession db i = some s) :
    s ∈ db.sessions := by
  unfold findSession at h
  exact List.mem_of_find?_eq_some h

/-- A message returned by `priorUserMessage db sid ts` belongs to the
requested session, has sender "user" and a timestamp strictly below `ts`. -/
lemma priorUserMessage_spec (db : DB) (sid : String) (ts : Nat) (u : Message)
    (h : priorUserMessage db sid ts = some u) :
    u ∈ db.messages ∧ u.sessionID = sid ∧ u.sender = "user" ∧ u.timestamp < ts := by
  unfold priorUserMessage at h
  have key : ∀ (l : List Message) (acc : Option Message),
      (∀ v, acc = some v → v ∈ db.messages ∧ v.sessionID = sid ∧ v.sender = "user" ∧ v.timestamp < ts) →
      (∀ m ∈ l, m ∈ db.messages ∧ m.sessionID = sid ∧ m.sender = "user" ∧ m.timestamp < ts) →
      ∀ v, l.foldl (fun acc m =>
        match acc with
        | none => some m
        | some b => if b.timestamp < m.timestamp then some m else acc) acc = some v →
        v ∈ db.messages ∧ v.sessionID = sid ∧ v.sender = "user" ∧ v.timestamp < ts := by
    intro l
    induction l with
    | nil =>
      intro acc hacc _ v hv
      exact hacc v hv
    | cons m l ih =>
      intro acc hacc hl v hv
      simp only [List.foldl_cons] at hv
      refine ih _ ?_ (fun x hx => hl x (List.mem_cons_of_mem _ hx)) v hv
      intro w hw
      cases acc with
      | none =>
        simp only [Option.some.injEq] at hw
        exact hw ▸ hl m (List.mem_cons_self _ _)
      | some b =>
        simp only at hw
        split at hw
        · simp only [Option.some.injEq] at hw
          exact hw ▸ hl m (List.mem_cons_self _ _)
        · exact hacc w hw
  refine key _ none (by simp) ?_ u h
  intro m hm
  have hmem := List.mem_filter.1 hm
  obtain ⟨hmem1, hmem2⟩ := hmem
  simp only [Bool.and_eq_true, beq_iff_eq, decide_eq_true_eq] at hmem2
  exact ⟨hmem1, hmem2.1.1, hmem2.1.2, hmem2.2⟩

/-! ## Claims -/

/-- C1: a successful `RegenerateMessage(messageId=M, sessionId=S)` call
leaves the target message `M` with `is_regenerated = true` and
`original_message_id` set to `M`'s own id, and creates exactly one new
message in session `S` with `sender = "bot"`, `is_regenerated = true` and
`original_message_id = M`. -/
theorem regenerate_success_marks_and_creates
    (db : DB) (c : Nat) (reqMessageID reqSessionID newMsgId : String)
    (aiRegen : String → Except String String)
    (nm : Message) (db' : DB) (c' : Nat)
    (h : regenerateMessage db c reqMessageID reqSessionID newMsgId aiRegen true true
         = (.success nm, db', c')) :
    (∃ m ∈ db'.messages, m.id = reqMessageID ∧ m.isRegenerated = true ∧ m.originalMessageID = reqMessageID)
    ∧ (∀ m ∈ db'.messages, m.id = reqMessageID → m.isRegenerated = true ∧ m.originalMessageID = reqMessageID)
    ∧ nm.sender = "bot" ∧ nm.isRegenerated = true ∧ nm.originalMessageID = reqMessageID
    ∧ nm.sessionID = reqSessionID
    ∧ db'.messages.length = db.messages.length + 1
    ∧ db'.messages.getLast? = some nm := by
  unfold regenerateMessage at h
  split at h
  · simp at h
  split at h
  · simp at h
  rename_i originalMessage hfm
  split at h
  · simp at h
  rename_i session hfs
  split at h
  · simp at h
  rename_i userMessage hpu
  split at h
  on_goal 2 => exact absurd rfl (by assumption)
  split at h
  · simp at h
  rename_i reply hai
  simp only [Prod.mk.injEq, RegenOutcome.success.injEq] at h
  obtain ⟨hnm, hdb, hc⟩ := h
  subst hnm hdb hc
  have hid : originalMessage.id = reqMessageID := findMessage_id db _ _ hfm
  have hmem : originalMessage ∈ db.messages := findMessage_mem db _ _ hfm
  refine ⟨?_, ?_, rfl, rfl, rfl, rfl, ?_, ?_⟩
  · exact ⟨_, List.mem_append_left _ (saveMessage_self_mem db _), hid, rfl, hid⟩
  · intro m hm hmid
    rcases List.mem_append.1 hm with hm | hm
    · rcases mem_saveMessage db _ m hm with hm | ⟨_, hne2⟩
      · subst hm
        exact ⟨rfl, hid⟩
      · exact absurd (hmid.trans hid.symm) hne2
    · rw [List.mem_singleton] at hm
      subst hm
      exact ⟨rfl, rfl⟩
  · have hlen := saveMessage_length db
      { originalMessage with isRegenerated := true, originalMessageID := originalMessage.id }
      ⟨originalMessage, hmem, rfl⟩
    rw [List.length_append, List.length_singleton, hlen]
  · show (_ ++ [_]).getLast? = _
    simp

/-- Witness for C1 at a concrete store. -/
theorem regenerate_success_marks_and_creates_witness :
    (∃ m ∈ c1DBOut.messages, m.id = "b1" ∧ m.isRegenerated = true ∧ m.originalMessageID = "b1")
    ∧ (∀ m ∈ c1DBOut.messages, m.id = "b1" → m.isRegenerated = true ∧ m.originalMessageID = "b1")
    ∧ c1Out.sender = "bot" ∧ c1Out.isRegenerated = true ∧ c1Out.originalMessageID = "b1"
    ∧ c1Out.sessionID = "s1"
    ∧ c1DBOut.messages.length = demoDB.messages.length + 1
    ∧ c1DBOut.messages.getLast? = some c1Out :=
  regenerate_success_marks_and_creates demoDB 10 "b1" "s1" "n1" demoAi c1Out c1DBOut 11 (by decide)

/-- On an AI failure, `sendMessageCore` with a successfully inserted user
message returns the 500 error and a store holding just the extra user
message. -/
lemma sendMessageCore_aiFailure (db : DB) (c : Nat) (reqMessage : String) (session : Session)
    (newUserId newBotId : String) (e : String) (okCreateBot okFinalSave : Bool) :
    sendMessageCore db c reqMessage session newUserId newBotId (.error e) true okCreateBot okFinalSave
      = (.failure ⟨"AI Service error", "Failed to get AI response", 500⟩,
         { db with messages := db.messages ++
             [⟨newUserId, reqMessage, "user", c, "text", false, false, false, "", session.id⟩] },
         c + 1) := rfl

/-- C2: the user message can only ever be inserted on the
empty-`sessionId` path (with a non-empty `sessionId` the broken
`Preload("Mode")` lookup 404s before any insert); on that path, when the
user message has been inserted and the completion client then fails, the
handler returns the 500 upstream error, the user message stays
persisted, and no bot message is created. -/
theorem sendMessage_aiFailure_keeps_user_message
    (db : DB) (c : Nat) (reqMessage reqSessionID newSessionId newUserId newBotId : String)
    (aiSend : String → Except String String) (e : String)
    (okCreateSession okCreateBot okFinalSave : Bool)
    (out : SendOutcome) (db' : DB) (c' : Nat)
    (hm : reqMessage ≠ "")
    (hai : aiSend reqMessage = .error e)
    (h : sendMessage db c reqMessage reqSessionID newSessionId newUserId newBotId aiSend
          okCreateSession true okCreateBot okFinalSave = (out, db', c')) :
    (reqSessionID ≠ "" →
      out = .failure ⟨"Session not found", "The specified session does not exist", 404⟩
      ∧ db' = db)
    ∧ (reqSessionID = "" → okCreateSession = true →
        out = .failure ⟨"AI Service error", "Failed to get AI response", 500⟩
        ∧ (∃ u ∈ db'.messages, u.id = newUserId ∧ u.sender = "user" ∧ u.content = reqMessage)
        ∧ db'.messages.length = db.messages.length + 1
        ∧ ∀ m ∈ db'.messages, m ∈ db.messages ∨ m.id = newUserId) := by
  unfold sendMessage at h
  rw [if_neg hm, hai] at h
  constructor
  · intro hne
    rw [if_neg hne] at h
    simp only [Prod.mk.injEq] at h
    obtain ⟨hout, hdb, _⟩ := h
    exact ⟨hout.symm, hdb.symm⟩
  · intro hempty hok
    subst hempty hok
    rw [if_pos rfl, if_pos rfl, sendMessageCore_aiFailure] at h
    simp only [Prod.mk.injEq] at h
    obtain ⟨hout, hdb, hc⟩ := h
    subst hout hdb hc
    refine ⟨rfl, ⟨_, List.mem_append_right _ (List.mem_singleton_self _), rfl, rfl, rfl⟩,
      by simp, ?_⟩
    intro m hmm
    rcases List.mem_append.1 hmm with hmm | hmm
    · exact Or.inl hmm
    · rw [List.mem_singleton] at hmm
      exact Or.inr (by rw [hmm])

/-- Witness for C2: the empty-`sessionId` path on the demo store, with
the AI failing after the user insert. -/
theorem sendMessage_aiFailure_keeps_user_message_witness :
    (("" : String) ≠ "" →
      SendOutcome.failure ⟨"AI Service error", "Failed to get AI response", 500⟩
        = SendOutcome.failure ⟨"Session not found", "The specified session does not exist", 404⟩
      ∧ c2DBOut = demoDB)
    ∧ (("" : String) = "" → true = true →
        SendOutcome.failure ⟨"AI Service error", "Failed to get AI response", 500⟩
          = SendOutcome.failure ⟨"AI Service error", "Failed to get AI response", 500⟩
        ∧ (∃ u ∈ c2DBOut.messages, u.id = "u2" ∧ u.sender = "user" ∧ u.content = "ping")
        ∧ c2DBOut.messages.length = demoDB.messages.length + 1
        ∧ ∀ m ∈ c2DBOut.messages, m ∈ demoDB.messages ∨ m.id = "u2") :=
  sendMessage_aiFailure_keeps_user_message demoDB 10 "ping" "" "s2" "u2" "b2" c2Ai "boom"
    true true true (.failure ⟨"AI Service error", "Failed to get AI response", 500⟩) c2DBOut 13
    (by decide) rfl (by decide)

/-- C6: when the target message and the session exist but no message of
that session has `sender = "user"` and a timestamp strictly below the
target's, `RegenerateMessage` fails 404 ("Could not find the user message
to regenerate") and the store is left untouched. -/
theorem regenerate_noPriorUser_fails_notFound
    (db : DB) (c : Nat) (reqMessageID reqSessionID newMsgId : String)
    (aiRegen : String → Except String String) (okSaveOriginal okCreateNew : Bool)
    (M : Message) (s : Session)
    (h1 : reqMessageID ≠ "") (h2 : reqSessionID ≠ "")
    (hfm : findMessage db reqMessageID = some M)
    (hfs : findSession db reqSessionID = some s)
    (hn : ∀ m ∈ db.messages,
      ¬(m.sessionID = reqSessionID ∧ m.sender = "user" ∧ m.timestamp < M.timestamp)) :
    regenerateMessage db c reqMessageID reqSessionID newMsgId aiRegen okSaveOriginal okCreateNew
      = (.failure ⟨"User message not found", "Could not find the user message to regenerate", 404⟩,
         db, c) := by
  have hpu : priorUserMessage db reqSessionID M.timestamp = none := by
    unfold priorUserMessage
    have hfil : db.messages.filter
        (fun m => m.sessionID == reqSessionID && m.sender == "user" &&
          decide (m.timestamp < M.timestamp)) = [] := by
      rw [List.filter_eq_nil_iff]
      intro a ha
      have := hn a ha
      simp only [Bool.and_eq_true, beq_iff_eq, decide_eq_true_eq, not_and] at this ⊢
      tauto
    rw [hfil]
    rfl
  unfold regenerateMessage
  rw [if_neg (by tauto)]
  simp only [hfm, hfs, hpu]

/-- Witness for C6 at a concrete store: the target "u1" has no earlier
user message. -/
theorem regenerate_noPriorUser_fails_notFound_witness :
    regenerateMessage demoDB 7 "u1" "s1" "n1" demoAi true true
      = (.failure ⟨"User message not found", "Could not find the user message to regenerate", 404⟩,
         demoDB, 7) :=
  regenerate_noPriorUser_fails_notFound demoDB 7 "u1" "s1" "n1" demoAi true true
    ⟨"u1", "hi", "user", 2, "text", false, false, false, "", "s1"⟩ ⟨"s1", "T", 0, 1, false⟩
    (by decide) (by decide) rfl rfl (by decide)

/-- C7: when the prior user message is found, the target has been marked
regenerated, and the completion call then fails, `RegenerateMessage`
returns the 500 upstream error, the mark on the target is not rolled
back, and no new bot message is created. -/
theorem regenerate_aiFailure_keeps_flag
    (db : DB) (c : Nat) (reqMessageID reqSessionID newMsgId : String)
    (aiRegen : String → Except String String) (okCreateNew : Bool)
    (M : Message) (s : Session) (u : Message) (e : String)
    (out : RegenOutcome) (db' : DB) (c' : Nat)
    (h1 : reqMessageID ≠ "") (h2 : reqSessionID ≠ "")
    (hfm : findMessage db reqMessageID = some M)
    (hfs : findSession db reqSessionID = some s)
    (hpu : priorUserMessage db reqSessionID M.timestamp = some u)
    (hai : aiRegen u.content = .error e)
    (h : regenerateMessage db c reqMessageID reqSessionID newMsgId aiRegen true okCreateNew
         = (out, db', c')) :
    out = .failure ⟨"AI Service error", "Failed to regenerate message", 500⟩
    ∧ (∃ m ∈ db'.messages, m.id = reqMessageID ∧ m.isRegenerated = true)
    ∧ db'.messages.length = db.messages.length
    ∧ (∀ m ∈ db'.messages, m ∈ db.messages ∨ m.id = reqMessageID) := by
  unfold regenerateMessage at h
  rw [if_neg (by tauto)] at h
  simp only [hfm, hfs, hpu, hai, if_pos] at h
  simp only [Prod.mk.injEq] at h
  obtain ⟨hout, hdb, hc⟩ := h
  subst hout hdb hc
  have hid : M.id = reqMessageID := findMessage_id db _ _ hfm
  have hmem : M ∈ db.messages := findMessage_mem db _ _ hfm
  refine ⟨rfl, ⟨_, saveMessage_self_mem db _, hid, rfl⟩, saveMessage_length db _ ⟨M, hmem, rfl⟩, ?_⟩
  intro m hm
  rcases mem_saveMessage db _ m hm with hm | ⟨hm, _⟩
  · subst hm
    exact Or.inr hid
  · exact Or.inl hm

/-- Witness for C7 at a concrete store. -/
theorem regenerate_aiFailure_keeps_flag_witness :
    RegenOutcome.failure ⟨"AI Service error", "Failed to regenerate message", 500⟩
      = RegenOutcome.failure ⟨"AI Service error", "Failed to regenerate message", 500⟩
    ∧ (∃ m ∈ c7DBOut.messages, m.id = "b1" ∧ m.isRegenerated = true)
    ∧ c7DBOut.messages.length = demoDB.messages.length
    ∧ (∀ m ∈ c7DBOut.messages, m ∈ demoDB.messages ∨ m.id = "b1") :=
  regenerate_aiFailure_keeps_flag demoDB 9 "b1" "s1" "n1" c2Ai true
    ⟨"b1", "yo", "bot", 3, "text", false, false, false, "", "s1"⟩ ⟨"s1", "T", 0, 1, false⟩
    ⟨"u1", "hi", "user", 2, "text", false, false, false, "", "s1"⟩ "boom"
    (.failure ⟨"AI Service error", "Failed to regenerate message", 500⟩) c7DBOut 9
    (by decide) (by decide) rfl rfl (by decide) rfl (by decide)

/-- C9: `RegenerateMessage` never checks that the target message belongs
to the supplied session: with a target from a *different* session, the
call still succeeds, the prior user message is searched in the supplied
session against the target's timestamp, and the new bot message lands in
the supplied session while `original_message_id` points to a message of a
different session. -/
theorem regenerate_ignores_session_mismatch
    (db : DB) (c : Nat) (reqMessageID reqSessionID newMsgId : String)
    (aiRegen : String → Except String String)
    (M : Message) (s : Session) (u : Message) (reply : String)
    (out : RegenOutcome) (db' : DB) (c' : Nat)
    (h1 : reqMessageID ≠ "") (h2 : reqSessionID ≠ "")
    (hfm : findMessage db reqMessageID = some M)
    (hmis : M.sessionID ≠ reqSessionID)
    (hfs : findSession db reqSessionID = some s)
    (hpu : priorUserMessage db reqSessionID M.timestamp = some u)
    (hai : aiRegen u.content = .ok reply)
    (h : regenerateMessage db c reqMessageID reqSessionID newMsgId aiRegen true true
         = (out, db', c')) :
    (∃ nm, out = .success nm ∧ nm.sessionID = reqSessionID ∧ nm.sender = "bot"
      ∧ nm.originalMessageID = reqMessageID ∧ nm ∈ db'.messages)
    ∧ u.sessionID = reqSessionID ∧ u.sender = "user" ∧ u.timestamp < M.timestamp
    ∧ (∃ m ∈ db.messages, m.id = reqMessageID ∧ m.sessionID ≠ reqSessionID) := by
  unfold regenerateMessage at h
  rw [if_neg (by tauto)] at h
  simp only [hfm, hfs, hpu, hai, if_pos] at h
  simp only [Prod.mk.injEq] at h
  obtain ⟨hout, hdb, hc⟩ := h
  subst hout hdb hc
  obtain ⟨humem, husess, husender, huts⟩ := priorUserMessage_spec db _ _ u hpu
  refine ⟨⟨_, rfl, rfl, rfl, rfl, List.mem_append_right _ (List.mem_singleton_self _)⟩,
    husess, husender, huts,
    ⟨M, findMessage_mem db _ _ hfm, findMessage_id db _ _ hfm, hmis⟩⟩

/-- Witness for C9 at a concrete two-session store. -/
theorem regenerate_ignores_session_mismatch_witness :
    (∃ nm, RegenOutcome.success c9Out = RegenOutcome.success nm ∧ nm.sessionID = "s2"
      ∧ nm.sender = "bot" ∧ nm.originalMessageID = "b1" ∧ nm ∈ c9DBOut.messages)
    ∧ (Message.sessionID ⟨"u2", "hey", "user", 4, "text", false, false, false, "", "s2"⟩) = "s2"
    ∧ (Message.sender ⟨"u2", "hey", "user", 4, "text", false, false, false, "", "s2"⟩) = "user"
    ∧ (Message.timestamp ⟨"u2", "hey", "user", 4, "text", false, false, false, "", "s2"⟩)
        < (Message.timestamp ⟨"b1", "yo", "bot", 5, "text", false, false, false, "", "s1"⟩)
    ∧ (∃ m ∈ c9DB.messages, m.id = "b1" ∧ m.sessionID ≠ "s2") :=
  regenerate_ignores_session_mismatch c9DB 10 "b1" "s2" "n1" demoAi
    ⟨"b1", "yo", "bot", 5, "text", false, false, false, "", "s1"⟩ ⟨"s2", "U", 0, 1, false⟩
    ⟨"u2", "hey", "user", 4, "text", false, false, false, "", "s2"⟩ "re: hey"
    (.success c9Out) c9DBOut 11
    (by decide) (by decide) rfl (by decide) rfl rfl rfl (by decide)

/-- `sendMessageCore` with every write succeeding: inserts the user and
bot messages, bumps the session's `updated_at`, and returns the bot
message with the session id. -/
lemma sendMessageCore_ok (db : DB) (c : Nat) (reqMessage : String) (session : Session)
    (uid bid reply : String) :
    sendMessageCore db c reqMessage session uid bid (.ok reply) true true true
      = (.success ⟨bid, reply, "bot", c + 1, "text", false, false, false, "", session.id⟩ session.id,
         saveSession
           ⟨db.sessions,
            (db.messages ++ [⟨uid, reqMessage, "user", c, "text", false, false, false, "", session.id⟩])
              ++ [⟨bid, reply, "bot", c + 1, "text", false, false, false, "", session.id⟩]⟩
           { session with updatedAt := c + 2 },
         c + 3) := rfl

lemma saveSession_messages (db : DB) (s : Session) :
    (saveSession db s).messages = db.messages := by
  unfold saveSession
  split <;> rfl

lemma saveSession_length (db : DB) (s : Session)
    (h : ∃ t ∈ db.sessions, t.id = s.id) :
    (saveSession db s).sessions.length = db.sessions.length := by
  unfold saveSession
  split
  · simp
  · rename_i hany
    exfalso
    rw [Bool.not_eq_true, List.any_eq_false] at hany
    obtain ⟨t, ht, hid⟩ := h
    have := hany t ht
    simp [hid] at this

/-- C5: a successful `SendMessage` with an empty `sessionId` creates
exactly one new session titled "New Chat" and appends exactly two
messages to it — the user message then the bot reply — with the user
timestamp at most the bot timestamp. -/
theorem sendMessage_emptySession_creates
    (db : DB) (c : Nat) (reqMessage sid uid bid : String)
    (aiSend : String → Except String String) (reply : String)
    (out : SendOutcome) (db' : DB) (c' : Nat)
    (hm : reqMessage ≠ "")
    (hai : aiSend reqMessage = .ok reply)
    (h : sendMessage db c reqMessage "" sid uid bid aiSend true true true true
         = (out, db', c')) :
    (∃ bm, out = .success bm sid ∧ bm.sender = "bot" ∧ bm.content = reply)
    ∧ db'.sessions.length = db.sessions.length + 1
    ∧ (∃ s ∈ db'.sessions, s.id = sid ∧ s.title = "New Chat")
    ∧ (∀ s ∈ db'.sessions, s ∈ db.sessions ∨ s.id = sid)
    ∧ (∃ u b, db'.messages = db.messages ++ [u, b]
        ∧ u.id = uid ∧ u.sender = "user" ∧ u.content = reqMessage ∧ u.sessionID = sid
        ∧ b.id = bid ∧ b.sender = "bot" ∧ b.content = reply ∧ b.sessionID = sid
        ∧ u.timestamp ≤ b.timestamp) := by
  unfold sendMessage at h
  rw [if_neg hm, if_pos rfl, if_pos rfl, hai, sendMessageCore_ok] at h
  simp only [Prod.mk.injEq] at h
  obtain ⟨hout, hdb, hc⟩ := h
  subst hout hdb hc
  refine ⟨⟨_, rfl, rfl, rfl⟩, ?_, ?_, ?_, ?_⟩
  · rw [saveSession_length]
    · simp
    · exact ⟨⟨sid, "New Chat", c, c + 1, false⟩,
        List.mem_append_right _ (List.mem_singleton_self _), rfl⟩
  · exact ⟨_, saveSession_self_mem _ _, rfl, rfl⟩
  · intro s hs
    rcases mem_saveSession _ _ s hs with hs | ⟨hs, _⟩
    · exact Or.inr (by rw [hs])
    · rcases List.mem_append.1 hs with hs | hs
      · exact Or.inl hs
      · rw [List.mem_singleton] at hs
        exact Or.inr (by rw [hs])
  · refine ⟨⟨uid, reqMessage, "user", c + 2, "text", false, false, false, "", sid⟩,
      ⟨bid, reply, "bot", c + 3, "text", false, false, false, "", sid⟩,
      ?_, rfl, rfl, rfl, rfl, rfl, rfl, rfl, rfl, Nat.le_succ _⟩
    rw [saveSession_messages]
    simp [List.append_assoc]

/-- Witness for C5 at a concrete store. -/
theorem sendMessage_emptySession_creates_witness :
    (∃ bm, SendOutcome.success c5Out "s2" = SendOutcome.success bm "s2"
      ∧ bm.sender = "bot" ∧ bm.content = "re: ping")
    ∧ c5DBOut.sessions.length = demoDB.sessions.length + 1
    ∧ (∃ s ∈ c5DBOut.sessions, s.id = "s2" ∧ s.title = "New Chat")
    ∧ (∀ s ∈ c5DBOut.sessions, s ∈ demoDB.sessions ∨ s.id = "s2")
    ∧ (∃ u b, c5DBOut.messages = demoDB.messages ++ [u, b]
        ∧ u.id = "u2" ∧ u.sender = "user" ∧ u.content = "ping" ∧ u.sessionID = "s2"
        ∧ b.id = "b2" ∧ b.sender = "bot" ∧ b.content = "re: ping" ∧ b.sessionID = "s2"
        ∧ u.timestamp ≤ b.timestamp) :=
  sendMessage_emptySession_creates demoDB 10 "ping" "s2" "u2" "b2" demoAi "re: ping"
    (.success c5Out "s2") c5DBOut 15 (by decide) rfl (by decide)

/-- `sendMessageCore` when both inserts succeed but the final session
save fails: the 200 response is still produced and the sessions table is
left untouched. -/
lemma sendMessageCore_ok_noSave (db : DB) (c : Nat) (reqMessage : String) (session : Session)
    (uid bid reply : String) :
    sendMessageCore db c reqMessage session uid bid (.ok reply) true true false
      = (.success ⟨bid, reply, "bot", c + 1, "text", false, false, false, "", session.id⟩ session.id,
         ⟨db.sessions,
          (db.messages ++ [⟨uid, reqMessage, "user", c, "text", false, false, false, "", session.id⟩])
            ++ [⟨bid, reply, "bot", c + 1, "text", false, false, false, "", session.id⟩]⟩,
         c + 3) := rfl

/-- C10: `SendMessage` discards the result of the final session save
(chat.go line 134).  Both messages can only have been inserted on the
empty-`sessionId` path (a non-empty `sessionId` 404s before inserting —
see the `Preload("Mode")` note on `sendMessage`); there, when that save
fails, the handler still returns 200 with the bot message and the
session id, and the new session row keeps its creation-time
`updated_at`, un-refreshed. -/
theorem sendMessage_finalSaveFailure_still_succeeds
    (db : DB) (c : Nat) (reqMessage reqSessionID sid uid bid : String)
    (aiSend : String → Except String String) (reply : String)
    (out : SendOutcome) (db' : DB) (c' : Nat)
    (hm : reqMessage ≠ "")
    (hai : aiSend reqMessage = .ok reply)
    (h : sendMessage db c reqMessage reqSessionID sid uid bid aiSend true true true false
         = (out, db', c')) :
    (reqSessionID ≠ "" →
      out = .failure ⟨"Session not found", "The specified session does not exist", 404⟩
      ∧ db' = db)
    ∧ (reqSessionID = "" →
        (∃ bm, out = .success bm sid ∧ bm.sender = "bot" ∧ bm.content = reply)
        ∧ db'.sessions = db.sessions ++ [⟨sid, "New Chat", c, c + 1, false⟩]
        ∧ (∃ u b, db'.messages = db.messages ++ [u, b])) := by
  unfold sendMessage at h
  rw [if_neg hm, hai] at h
  constructor
  · intro hne
    rw [if_neg hne] at h
    simp only [Prod.mk.injEq] at h
    obtain ⟨hout, hdb, _⟩ := h
    exact ⟨hout.symm, hdb.symm⟩
  · intro hempty
    subst hempty
    rw [if_pos rfl, if_pos rfl, sendMessageCore_ok_noSave] at h
    simp only [Prod.mk.injEq] at h
    obtain ⟨hout, hdb, hc⟩ := h
    subst hout hdb hc
    refine ⟨⟨_, rfl, rfl, rfl⟩, rfl,
      ⟨⟨uid, reqMessage, "user", c + 2, "text", false, false, false, "", sid⟩,
       ⟨bid, reply, "bot", c + 3, "text", false, false, false, "", sid⟩,
       by simp [List.append_assoc]⟩⟩

/-- Witness for C10: the empty-`sessionId` path on the demo store with
the final save failing; the new session keeps `updated_at = 11`, its
creation value. -/
theorem sendMessage_finalSaveFailure_still_succeeds_witness :
    (("" : String) ≠ "" →
      SendOutcome.success c5Out "s2"
        = SendOutcome.failure ⟨"Session not found", "The specified session does not exist", 404⟩
      ∧ c10DBOut = demoDB)
    ∧ (("" : String) = "" →
        (∃ bm, SendOutcome.success c5Out "s2" = SendOutcome.success bm "s2"
          ∧ bm.sender = "bot" ∧ bm.content = "re: ping")
        ∧ c10DBOut.sessions = demoDB.sessions ++ [⟨"s2", "New Chat", 10, 10 + 1, false⟩]
        ∧ (∃ u b, c10DBOut.messages = demoDB.messages ++ [u, b])) :=
  sendMessage_finalSaveFailure_still_succeeds demoDB 10 "ping" "" "s2" "u2" "b2" demoAi
    "re: ping" (.success c5Out "s2") c10DBOut 15 (by decide) rfl (by decide)

/-- C4: `DeleteSession(id)` with an absent id fails 404 before any
delete, leaving the store untouched; with a present id it removes exactly
the messages owned by the session and the session row itself, after which
`GetSession(id)` fails 404. -/
theorem deleteSession_spec (db : DB) (sid : String) :
    (findSession db sid = none →
      ∀ okDM okDS, deleteSession db sid okDM okDS
        = (.failure ⟨"Session not found", "The specified session does not exist", 404⟩, db))
    ∧ (∀ s, findSession db sid = some s →
        (∃ msg, (deleteSession db sid true true).1 = .success msg)
        ∧ (∀ m ∈ (deleteSession db sid true true).2.messages, m.sessionID ≠ sid)
        ∧ (∀ m ∈ db.messages, m.sessionID ≠ sid → m ∈ (deleteSession db sid true true).2.messages)
        ∧ getSession (deleteSession db sid true true).2 sid
            = .failure ⟨"Session not found", "The specified session does not exist", 404⟩) := by
  constructor
  · intro h okDM okDS
    unfold deleteSession
    simp only [h]
  · intro s hs
    have hid : s.id = sid := findSession_id db sid s hs
    have hD : deleteSession db sid true true
        = (.success "Session deleted successfully",
           ⟨db.sessions.filter (fun t => !(t.id == s.id)),
            db.messages.filter (fun m => !(m.sessionID == sid))⟩) := by
      unfold deleteSession
      simp only [hs, if_pos]
    rw [hD]
    have hfind : findSession ⟨db.sessions.filter (fun t => !(t.id == s.id)),
        db.messages.filter (fun m => !(m.sessionID == sid))⟩ sid = none := by
      unfold findSession
      rw [List.find?_eq_none]
      intro a ha
      have := (List.mem_filter.1 ha).2
      simp only [hid] at this
      simpa using this
    refine ⟨⟨_, rfl⟩, ?_, ?_, ?_⟩
    · intro m hm
      have := (List.mem_filter.1 hm).2
      simpa using this
    · intro m hm hne
      exact List.mem_filter.2 ⟨hm, by simpa using hne⟩
    · unfold getSession
      rw [hfind]

/-- Witness for C4: an absent id ("zz") and a present id ("s1") on the
demo store. -/
theorem deleteSession_spec_witness :
    (deleteSession demoDB "zz" true true
      = (.failure ⟨"Session not found", "The specified session does not exist", 404⟩, demoDB))
    ∧ ((∃ msg, (deleteSession demoDB "s1" true true).1 = .success msg)
        ∧ (∀ m ∈ (deleteSession demoDB "s1" true true).2.messages, m.sessionID ≠ "s1")
        ∧ (∀ m ∈ demoDB.messages, m.sessionID ≠ "s1" →
            m ∈ (deleteSession demoDB "s1" true true).2.messages)
        ∧ getSession (deleteSession demoDB "s1" true true).2 "s1"
            = .failure ⟨"Session not found", "The specified session does not exist", 404⟩) :=
  ⟨(deleteSession_spec demoDB "zz").1 (by decide) true true,
   (deleteSession_spec demoDB "s1").2 ⟨"s1", "T", 0, 1, false⟩ (by decide)⟩

/-- C8: `UpdateSession(id, title?, favorite?)` applies only the supplied
fields — an empty title leaves the title, an absent favorite flag leaves
the flag — bumps `updated_at` to now, and never changes `id` or
`created_at`; an absent id fails 404 with the store untouched. -/
theorem updateSession_spec (db : DB) (c : Nat) (sid reqTitle : String)
    (reqIsFavorite : Option Bool) :
    (findSession db sid = none →
      ∀ okSave, updateSession db c sid reqTitle reqIsFavorite okSave
        = (.failure ⟨"Session not found", "The specified session does not exist", 404⟩, db, c))
    ∧ (∀ s, findSession db sid = some s →
        ∃ s3, updateSession db c sid reqTitle reqIsFavorite true
            = (.success s3, saveSession db s3, c + 1)
          ∧ s3.id = s.id ∧ s3.createdAt = s.createdAt
          ∧ s3.title = (if reqTitle = "" then s.title else reqTitle)
          ∧ s3.isFavorite = reqIsFavorite.getD s.isFavorite
          ∧ s3.updatedAt = c
          ∧ (∀ t ∈ (saveSession db s3).sessions, t = s3 ∨ t ∈ db.sessions)) := by
  constructor
  · intro h okSave
    unfold updateSession
    simp only [h]
  · intro s hs
    unfold updateSession
    simp only [hs, if_pos]
    refine ⟨_, rfl, ?_, ?_, ?_, ?_, rfl, ?_⟩
    · by_cases ht : reqTitle = "" <;> cases reqIsFavorite <;> simp [ht]
    · by_cases ht : reqTitle = "" <;> cases reqIsFavorite <;> simp [ht]
    · by_cases ht : reqTitle = "" <;> cases reqIsFavorite <;> simp [ht]
    · by_cases ht : reqTitle = "" <;> cases reqIsFavorite <;> simp [ht]
    · intro t ht
      rcases mem_saveSession db _ t ht with ht | ⟨ht, _⟩
      · exact Or.inl ht
      · exact Or.inr ht

/-- Witness for C8: an absent id ("zz") and a partial update of "s1"
(empty title, favorite set) on the demo store. -/
theorem updateSession_spec_witness :
    (updateSession demoDB 10 "zz" "x" none true
      = (.failure ⟨"Session not found", "The specified session does not exist", 404⟩, demoDB, 10))
    ∧ (∃ s3, updateSession demoDB 10 "s1" "" (some true) true
          = (.success s3, saveSession demoDB s3, 10 + 1)
        ∧ s3.id = (Session.id ⟨"s1", "T", 0, 1, false⟩)
        ∧ s3.createdAt = (Session.createdAt ⟨"s1", "T", 0, 1, false⟩)
        ∧ s3.title = (if ("" : String) = "" then (Session.title ⟨"s1", "T", 0, 1, false⟩) else "")
        ∧ s3.isFavorite = (some true).getD (Session.isFavorite ⟨"s1", "T", 0, 1, false⟩)
        ∧ s3.updatedAt = 10
        ∧ (∀ t ∈ (saveSession demoDB s3).sessions, t = s3 ∨ t ∈ demoDB.sessions)) :=
  ⟨(updateSession_spec demoDB 10 "zz" "x" none).1 (by decide) true,
   (updateSession_spec demoDB 10 "s1" "" (some true)).2 ⟨"s1", "T", 0, 1, false⟩ (by decide)⟩

lemma timeOk_clock (db : DB) (c c' : Nat) (h : timeOk db c) (hc : c ≤ c') : timeOk db c' :=
  fun s hs => ⟨(h s hs).1, le_trans (h s hs).2 hc⟩

/-- Time/monotonicity facts for `sendMessageCore`, over every flag
combination and AI outcome. -/
lemma sendMessageCore_time (db0 : DB) (c0 : Nat) (reqMessage : String) (session : Session)
    (uid bid : String) (aiResult : Except String String) (o1 o2 o3 : Bool)
    (out : SendOutcome) (db' : DB) (c' : Nat)
    (hs : session.createdAt ≤ c0 + 2) (h0 : timeOk db0 c0)
    (h : sendMessageCore db0 c0 reqMessage session uid bid aiResult o1 o2 o3 = (out, db', c')) :
    timeOk db' c' ∧ c0 ≤ c' ∧ sessionsMonoAt db0 db' c0
    ∧ (∀ bm sessId, out = .success bm sessId → o3 = true →
        ∃ s' ∈ db'.sessions, s'.id = sessId ∧ c0 ≤ s'.updatedAt) := by
  unfold sendMessageCore at h
  split at h
  case isFalse =>
    simp only [Prod.mk.injEq] at h
    obtain ⟨hout, hdb, hc⟩ := h
    subst hout hdb hc
    exact ⟨timeOk_clock _ _ _ h0 (by omega), by omega, fun s' hs' => Or.inl hs',
      fun bm sessId hout => by cases hout⟩
  case isTrue =>
    split at h
    case h_1 =>
      simp only [Prod.mk.injEq] at h
      obtain ⟨hout, hdb, hc⟩ := h
      subst hout hdb hc
      exact ⟨timeOk_clock _ _ _ h0 (by omega), by omega, fun s' hs' => Or.inl hs',
        fun bm sessId hout => by cases hout⟩
    case h_2 reply =>
      split at h
      case isFalse =>
        simp only [Prod.mk.injEq] at h
        obtain ⟨hout, hdb, hc⟩ := h
        subst hout hdb hc
        exact ⟨timeOk_clock _ _ _ h0 (by omega), by omega, fun s' hs' => Or.inl hs',
          fun bm sessId hout => by cases hout⟩
      case isTrue =>
        simp only [Prod.mk.injEq] at h
        obtain ⟨hout, hdb, hc⟩ := h
        subst hout hc
        by_cases ho3 : o3 = true
        · rw [if_pos ho3] at hdb
          subst hdb
          refine ⟨?_, by omega, ?_, ?_⟩
          · intro t ht
            rcases mem_saveSession _ _ t ht with ht | ⟨ht, _⟩
            · subst ht
              exact ⟨by dsimp only; omega, by dsimp only; omega⟩
            · exact ⟨(h0 t ht).1, by have := (h0 t ht).2; omega⟩
          · intro t ht
            rcases mem_saveSession _ _ t ht with ht | ⟨ht, _⟩
            · subst ht
              exact Or.inr (by simp)
            · exact Or.inl ht
          · intro bm sessId hout _
            rw [SendOutcome.success.injEq] at hout
            exact ⟨_, saveSession_self_mem _ _, hout.2, by simp⟩
        · rw [if_neg ho3] at hdb
          subst hdb
          exact ⟨timeOk_clock _ _ _ h0 (by omega), by omega, fun s' hs' => Or.inl hs',
            fun bm sessId hout ho3' => absurd ho3' ho3⟩

/-- Time/monotonicity facts for the full `SendMessage` handler. -/
lemma sendMessage_time (db : DB) (c : Nat) (reqMessage reqSessionID sid uid bid : String)
    (aiSend : String → Except String String) (o0 o1 o2 o3 : Bool)
    (out : SendOutcome) (db' : DB) (c' : Nat)
    (h0 : timeOk db c)
    (h : sendMessage db c reqMessage reqSessionID sid uid bid aiSend o0 o1 o2 o3
         = (out, db', c')) :
    timeOk db' c' ∧ c ≤ c' ∧ sessionsMonoAt db db' c
    ∧ (∀ bm sessId, out = .success bm sessId → o3 = true →
        ∃ s' ∈ db'.sessions, s'.id = sessId ∧ c ≤ s'.updatedAt) := by
  unfold sendMessage at h
  split at h
  · simp only [Prod.mk.injEq] at h
    obtain ⟨hout, hdb, hc⟩ := h
    subst hout hdb hc
    exact ⟨h0, le_refl c, fun s' hs' => Or.inl hs', fun bm sessId hout => by cases hout⟩
  split at h
  case isTrue =>
    split at h
    case isTrue =>
      have hcore := sendMessageCore_time _ _ _ _ _ _ _ o1 o2 o3 out db' c'
        (by dsimp only; omega)
        (by
          intro t ht
          rcases List.mem_append.1 ht with ht | ht
          · exact ⟨(h0 t ht).1, by have := (h0 t ht).2; omega⟩
          · rw [List.mem_singleton] at ht
            subst ht
            exact ⟨by dsimp only; omega, by dsimp only; omega⟩)
        h
      obtain ⟨hA, hB, hC, hD⟩ := hcore
      refine ⟨hA, by omega, ?_, ?_⟩
      · intro s' hs'
        rcases hC s' hs' with hmem | hupd
        · rcases List.mem_append.1 hmem with hmem | hmem
          · exact Or.inl hmem
          · rw [List.mem_singleton] at hmem
            subst hmem
            exact Or.inr (by dsimp only; omega)
        · exact Or.inr (by omega)
      · intro bm sessId hout ho3
        obtain ⟨s', hmem, hid, hupd⟩ := hD bm sessId hout ho3
        exact ⟨s', hmem, hid, by omega⟩
    case isFalse =>
      simp only [Prod.mk.injEq] at h
      obtain ⟨hout, hdb, hc⟩ := h
      subst hout hdb hc
      exact ⟨timeOk_clock _ _ _ h0 (by omega), by omega, fun s' hs' => Or.inl hs',
        fun bm sessId hout => by cases hout⟩
  case isFalse =>
    simp only [Prod.mk.injEq] at h
    obtain ⟨hout, hdb, hc⟩ := h
    subst hout hdb hc
    exact ⟨h0, le_refl c, fun s' hs' => Or.inl hs', fun bm sessId hout => by cases hout⟩

lemma saveMessage_sessions (db : DB) (m : Message) :
    (saveMessage db m).sessions = db.sessions := by
  unfold saveMessage
  split <;> rfl

/-- `RegenerateMessage` never writes the sessions table: whatever the
branch taken, the sessions are returned unchanged. -/
lemma regenerateMessage_sessions (db : DB) (c : Nat) (rid sid nid : String)
    (aiRegen : String → Except String String) (o1 o2 : Bool)
    (out : RegenOutcome) (db' : DB) (c' : Nat)
    (h : regenerateMessage db c rid sid nid aiRegen o1 o2 = (out, db', c')) :
    db'.sessions = db.sessions ∧ c ≤ c' := by
  unfold regenerateMessage at h
  repeat' split at h
  all_goals simp only [Prod.mk.injEq] at h
  all_goals obtain ⟨hout, hdb, hc⟩ := h
  all_goals subst hdb hc
  all_goals
    first
      | exact ⟨rfl, by omega⟩
      | exact ⟨saveMessage_sessions _ _, by omega⟩

lemma applyUpdate_createdAt (s : Session) (t : String) (f : Option Bool) (c : Nat) :
    (applyUpdate s t f c).createdAt = s.createdAt := by
  unfold applyUpdate
  cases f <;> by_cases ht : t ≠ "" <;> simp [ht]

lemma applyUpdate_updatedAt (s : Session) (t : String) (f : Option Bool) (c : Nat) :
    (applyUpdate s t f c).updatedAt = c := by
  unfold applyUpdate
  cases f <;> by_cases ht : t ≠ "" <;> simp [ht]

lemma updateSession_notFound (db : DB) (c : Nat) (sid reqTitle : String)
    (fav : Option Bool) (ok : Bool) (hfs : findSession db sid = none) :
    updateSession db c sid reqTitle fav ok
      = (.failure ⟨"Session not found", "The specified session does not exist", 404⟩, db, c) := by
  unfold updateSession
  simp only [hfs]

lemma updateSession_found (db : DB) (c : Nat) (sid reqTitle : String)
    (fav : Option Bool) (s : Session) (hfs : findSession db sid = some s) :
    updateSession db c sid reqTitle fav true
      = (.success (applyUpdate s reqTitle fav c), saveSession db (applyUpdate s reqTitle fav c),
         c + 1) := by
  unfold updateSession applyUpdate
  simp [hfs]

lemma updateSession_saveFail (db : DB) (c : Nat) (sid reqTitle : String)
    (fav : Option Bool) (s : Session) (hfs : findSession db sid = some s) :
    updateSession db c sid reqTitle fav false
      = (.failure ⟨"Database error", "Failed to update session", 500⟩, db, c + 1) := by
  unfold updateSession
  simp [hfs]

/-- Time/monotonicity facts for `UpdateSession`. -/
lemma updateSession_time (db : DB) (c : Nat) (sid reqTitle : String)
    (reqIsFavorite : Option Bool) (ok : Bool)
    (out : SessionOutcome) (db' : DB) (c' : Nat)
    (h0 : timeOk db c)
    (h : updateSession db c sid reqTitle reqIsFavorite ok = (out, db', c')) :
    timeOk db' c' ∧ c ≤ c' ∧ sessionsMonoAt db db' c
    ∧ (∀ s3, out = .success s3 → s3.updatedAt = c) := by
  cases hfs : findSession db sid with
  | none =>
    rw [updateSession_notFound db c sid reqTitle reqIsFavorite ok hfs] at h
    simp only [Prod.mk.injEq] at h
    obtain ⟨hout, hdb, hc⟩ := h
    subst hout hdb hc
    exact ⟨h0, le_refl c, fun s' hs' => Or.inl hs', fun s3 hout => by cases hout⟩
  | some s =>
    have hsess := h0 s (findSession_mem _ _ _ hfs)
    cases ok with
    | false =>
      rw [updateSession_saveFail db c sid reqTitle reqIsFavorite s hfs] at h
      simp only [Prod.mk.injEq] at h
      obtain ⟨hout, hdb, hc⟩ := h
      subst hout hdb hc
      exact ⟨timeOk_clock _ _ _ h0 (by omega), by omega, fun s' hs' => Or.inl hs',
        fun s3 hout => by cases hout⟩
    | true =>
      rw [updateSession_found db c sid reqTitle reqIsFavorite s hfs] at h
      simp only [Prod.mk.injEq] at h
      obtain ⟨hout, hdb, hc⟩ := h
      subst hout hdb hc
      refine ⟨?_, by omega, ?_, ?_⟩
      · intro t ht
        rcases mem_saveSession _ _ t ht with ht | ⟨ht, _⟩
        · subst ht
          rw [applyUpdate_createdAt, applyUpdate_updatedAt]
          omega
        · exact ⟨(h0 t ht).1, by have := (h0 t ht).2; omega⟩
      · intro t ht
        rcases mem_saveSession _ _ t ht with ht | ⟨ht, _⟩
        · subst ht
          rw [applyUpdate_updatedAt]
          exact Or.inr (le_refl c)
        · exact Or.inl ht
      · intro s3 hout
        rw [SessionOutcome.success.injEq] at hout
        subst hout
        exact applyUpdate_updatedAt s reqTitle reqIsFavorite c

lemma toggleFavorite_notFound (db : DB) (c : Nat) (sid : String) (ok : Bool)
    (hfs : findSession db sid = none) :
    toggleFavorite db c sid ok
      = (.failure ⟨"Session not found", "The specified session does not exist", 404⟩, db, c) := by
  unfold toggleFavorite
  simp [hfs]

lemma toggleFavorite_found (db : DB) (c : Nat) (sid : String) (s : Session)
    (hfs : findSession db sid = some s) :
    toggleFavorite db c sid true
      = (.success { s with isFavorite := !s.isFavorite, updatedAt := c },
         saveSession db { s with isFavorite := !s.isFavorite, updatedAt := c }, c + 1) := by
  unfold toggleFavorite
  simp [hfs]

lemma toggleFavorite_saveFail (db : DB) (c : Nat) (sid : String) (s : Session)
    (hfs : findSession db sid = some s) :
    toggleFavorite db c sid false
      = (.failure ⟨"Database error", "Failed to update session", 500⟩, db, c + 1) := by
  unfold toggleFavorite
  simp [hfs]

/-- Time/monotonicity facts for `ToggleFavorite`. -/
lemma toggleFavorite_time (db : DB) (c : Nat) (sid : String) (ok : Bool)
    (out : SessionOutcome) (db' : DB) (c' : Nat)
    (h0 : timeOk db c)
    (h : toggleFavorite db c sid ok = (out, db', c')) :
    timeOk db' c' ∧ c ≤ c' ∧ sessionsMonoAt db db' c
    ∧ (∀ s3, out = .success s3 → s3.updatedAt = c) := by
  cases hfs : findSession db sid with
  | none =>
    rw [toggleFavorite_notFound db c sid ok hfs] at h
    simp only [Prod.mk.injEq] at h
    obtain ⟨hout, hdb, hc⟩ := h
    subst hout hdb hc
    exact ⟨h0, le_refl c, fun s' hs' => Or.inl hs', fun s3 hout => by cases hout⟩
  | some s =>
    have hsess := h0 s (findSession_mem _ _ _ hfs)
    cases ok with
    | false =>
      rw [toggleFavorite_saveFail db c sid s hfs] at h
      simp only [Prod.mk.injEq] at h
      obtain ⟨hout, hdb, hc⟩ := h
      subst hout hdb hc
      exact ⟨timeOk_clock _ _ _ h0 (by omega), by omega, fun s' hs' => Or.inl hs',
        fun s3 hout => by cases hout⟩
    | true =>
      rw [toggleFavorite_found db c sid s hfs] at h
      simp only [Prod.mk.injEq] at h
      obtain ⟨hout, hdb, hc⟩ := h
      subst hout hdb hc
      refine ⟨?_, by omega, ?_, ?_⟩
      · intro t ht
        rcases mem_saveSession _ _ t ht with ht | ⟨ht, _⟩
        · subst ht
          exact ⟨by dsimp only; omega, by dsimp only; omega⟩
        · exact ⟨(h0 t ht).1, by have := (h0 t ht).2; omega⟩
      · intro t ht
        rcases mem_saveSession _ _ t ht with ht | ⟨ht, _⟩
        · subst ht
          exact Or.inr (le_refl c)
        · exact Or.inl ht
      · intro s3 hout
        rw [SessionOutcome.success.injEq] at hout
        subst hout
        rfl

/-- Time/monotonicity facts for `DeleteSession` (which takes no clock:
the store can only lose sessions). -/
lemma deleteSession_time (db : DB) (c : Nat) (sid : String) (o1 o2 : Bool)
    (out : DeleteOutcome) (db' : DB)
    (h0 : timeOk db c)
    (h : deleteSession db sid o1 o2 = (out, db')) :
    timeOk db' c ∧ sessionsMonoAt db db' c := by
  unfold deleteSession at h
  repeat' split at h
  all_goals simp only [Prod.mk.injEq] at h
  all_goals obtain ⟨hout, hdb⟩ := h
  all_goals subst hdb
  all_goals
    first
      | exact ⟨h0, fun s' hs' => Or.inl hs'⟩
      | exact ⟨fun t ht => h0 t (List.mem_filter.1 ht).1,
          fun t ht => Or.inl (List.mem_filter.1 ht).1⟩

/-- C3 counterexample: a successful `RegenerateMessage` call at clock 10
mutates the session's messages (one appended, the target's flag updated)
yet leaves the session row with its stale `updated_at = 1 < 10`: the
claim that every mutating operation — including RegenerateMessage's
message creation and flag update — refreshes the session's `updated_at`
is false on the code. -/
theorem regenerate_leaves_updatedAt_stale :
    (regenerateMessage demoDB 10 "b1" "s1" "n1" demoAi true true).1 = RegenOutcome.success c1Out
    ∧ ((regenerateMessage demoDB 10 "b1" "s1" "n1" demoAi true true).2.1.messages.length
        = demoDB.messages.length + 1)
    ∧ (regenerateMessage demoDB 10 "b1" "s1" "n1" demoAi true true).2.1.sessions
        = [⟨"s1", "T", 0, 1, false⟩]
    ∧ (∀ s ∈ (regenerateMessage demoDB 10 "b1" "s1" "n1" demoAi true true).2.1.sessions,
        s.updatedAt < 10) := by decide

/-- C3 (amended): in every reachable store `updated_at ≥ created_at`
holds and no session's `updated_at` ever decreases; `SendMessage`,
`UpdateSession` and `ToggleFavorite` refresh the found session's
`updated_at` to now on success, while `RegenerateMessage` — contrary to
the original claim — leaves the sessions table entirely unchanged, and
`DeleteSession` only removes rows. -/
theorem session_timestamps_monotone
    (db : DB) (c : Nat)
    (m1 sid1 nsid uid bid : String) (ai1 : String → Except String String) (p0 p1 p2 p3 : Bool)
    (out1 : SendOutcome) (db1 : DB) (c1 : Nat)
    (rid2 sid2 nid2 : String) (ai2 : String → Except String String) (q1 q2 : Bool)
    (out2 : RegenOutcome) (db2 : DB) (c2 : Nat)
    (sid3 t3 : String) (f3 : Option Bool) (r3 : Bool)
    (out3 : SessionOutcome) (db3 : DB) (c3 : Nat)
    (sid4 : String) (r4 : Bool) (out4 : SessionOutcome) (db4 : DB) (c4 : Nat)
    (sid5 : String) (v1 v2 : Bool) (out5 : DeleteOutcome) (db5 : DB)
    (h0 : timeOk db c)
    (h1 : sendMessage db c m1 sid1 nsid uid bid ai1 p0 p1 p2 p3 = (out1, db1, c1))
    (h2 : regenerateMessage db c rid2 sid2 nid2 ai2 q1 q2 = (out2, db2, c2))
    (h3 : updateSession db c sid3 t3 f3 r3 = (out3, db3, c3))
    (h4 : toggleFavorite db c sid4 r4 = (out4, db4, c4))
    (h5 : deleteSession db sid5 v1 v2 = (out5, db5)) :
    (timeOk db1 c1 ∧ c ≤ c1 ∧ sessionsMonoAt db db1 c
      ∧ (∀ bm sessId, out1 = .success bm sessId → p3 = true →
          ∃ s' ∈ db1.sessions, s'.id = sessId ∧ c ≤ s'.updatedAt))
    ∧ (db2.sessions = db.sessions ∧ c ≤ c2)
    ∧ (timeOk db3 c3 ∧ c ≤ c3 ∧ sessionsMonoAt db db3 c
        ∧ (∀ s3, out3 = .success s3 → s3.updatedAt = c))
    ∧ (timeOk db4 c4 ∧ c ≤ c4 ∧ sessionsMonoAt db db4 c
        ∧ (∀ s4, out4 = .success s4 → s4.updatedAt = c))
    ∧ (timeOk db5 c ∧ sessionsMonoAt db db5 c) :=
  ⟨sendMessage_time db c m1 sid1 nsid uid bid ai1 p0 p1 p2 p3 out1 db1 c1 h0 h1,
   regenerateMessage_sessions db c rid2 sid2 nid2 ai2 q1 q2 out2 db2 c2 h2,
   updateSession_time db c sid3 t3 f3 r3 out3 db3 c3 h0 h3,
   toggleFavorite_time db c sid4 r4 out4 db4 c4 h0 h4,
   deleteSession_time db c sid5 v1 v2 out5 db5 h0 h5⟩

/-- Witness for the amended C3: all five operations run on the demo
store at clock 10. -/
theorem session_timestamps_monotone_witness :
    (timeOk c5DBOut 15 ∧ 10 ≤ 15 ∧ sessionsMonoAt demoDB c5DBOut 10
      ∧ (∀ bm sessId, SendOutcome.success c5Out "s2" = SendOutcome.success bm sessId →
          true = true → ∃ s' ∈ c5DBOut.sessions, s'.id = sessId ∧ 10 ≤ s'.updatedAt))
    ∧ (c1DBOut.sessions = demoDB.sessions ∧ 10 ≤ 11)
    ∧ (timeOk c3UpdDB 11 ∧ 10 ≤ 11 ∧ sessionsMonoAt demoDB c3UpdDB 10
        ∧ (∀ s3, SessionOutcome.success ⟨"s1", "T", 0, 10, true⟩ = SessionOutcome.success s3 →
            s3.updatedAt = 10))
    ∧ (timeOk c3UpdDB 11 ∧ 10 ≤ 11 ∧ sessionsMonoAt demoDB c3UpdDB 10
        ∧ (∀ s4, SessionOutcome.success ⟨"s1", "T", 0, 10, true⟩ = SessionOutcome.success s4 →
            s4.updatedAt = 10))
    ∧ (timeOk ⟨[], []⟩ 10 ∧ sessionsMonoAt demoDB ⟨[], []⟩ 10) :=
  session_timestamps_monotone demoDB 10 "ping" "" "s2" "u2" "b2" demoAi true true true true
    (.success c5Out "s2") c5DBOut 15
    "b1" "s1" "n1" demoAi true true (.success c1Out) c1DBOut 11
    "s1" "" (some true) true (.success ⟨"s1", "T", 0, 10, true⟩) c3UpdDB 11
    "s1" true (.success ⟨"s1", "T", 0, 10, true⟩) c3UpdDB 11
    "s1" true true (.success "Session deleted successfully") ⟨[], []⟩
    (by unfold timeOk; decide) (by decide) (by decide) (by decide) (by decide) (by decide)
